import Mathlib

/-!
# MAVBot — shallow embedding of the Slack event router and handlers

This file embeds the event-routing and handler logic of the MAVBot Slack bot
(package `cmd`, the `start` subcommand) and proves the spec's testable
properties about it.

Modelling conventions:
* Slack SDK payload types (`slack.Attachment`, `slack.SlashCommand`,
  `slackevents.EventsAPIEvent`, `slack.InteractionCallback`, block objects)
  are embedded as Lean structures carrying exactly the fields the program
  reads or writes.
* The Slack client is a record of the two outbound calls the handlers make:
  `getUserInfo` (fallible user lookup) and `postMessage` (fallible message
  post).  `time.Now().Format("2006-01-02 15:04:05")` is modelled as the
  string field `now` of the client record, since the handlers only ever
  embed the formatted time in an attachment field.
* Side effects are made explicit: each handler returns, besides its Go
  return values, the list of `PostMessage` calls it issued (channel and
  attachment) and, for the interactive handler, the log lines it wrote.
* Go `error` values are modelled as `String`; `fmt.Errorf("...: %w", err)`
  becomes string concatenation.
* `strings.ToLower` and `strings.Contains` are modelled character-wise
  (`charToLower` is the ASCII case map, which is what the relevant
  keyword "hello" exercises; a byte-level match of an ASCII needle inside
  valid UTF-8 coincides with the character-level match).
-/

namespace MAVBot

/-- Model of Go `strings.ToLower` on a single character (ASCII case map:
uppercase letters 65–90 map to 97–122, everything else unchanged). -/
def charToLower (c : Char) : Char :=
  if 65 ≤ c.toNat ∧ c.toNat ≤ 90 then Char.ofNat (c.toNat + 32) else c

/-- Model of Go `strings.ToLower`. -/
def strToLower (s : String) : String :=
  ⟨s.data.map charToLower⟩

/-- Predicate `substrAt l sub`: true iff `sub` occurs contiguously inside `l`. -/
def substrAt : List Char → List Char → Bool
  | [], sub => sub.isEmpty
  | c :: tl, sub => sub.isPrefixOf (c :: tl) || substrAt tl sub

/-- Model of Go `strings.Contains s sub`. -/
def strContains (s sub : String) : Bool :=
  substrAt s.data sub.data

/- ## Slack payload types (as read/written by the program) -/

/-- Model of `slack.AttachmentField`: a titled field of an attachment. -/
structure AttachmentField where
  title : String
  value : String
  deriving DecidableEq

/-- Model of `slack.TextBlockObject` (only the fields the program sets). -/
structure TextBlockObject where
  type : String
  text : String
  deriving DecidableEq

/-- Model of `slack.OptionBlockObject` as built by `slack.NewOptionBlockObject`. -/
structure OptionBlockObject where
  value : String
  text : TextBlockObject
  description : Option TextBlockObject
  deriving DecidableEq

/-- Model of `slack.CheckboxGroupsBlockElement` as built by
`slack.NewCheckboxGroupsBlockElement`. -/
structure CheckboxGroupsBlockElement where
  actionID : String
  options : List OptionBlockObject
  deriving DecidableEq

/-- Model of `slack.Block`: the program only ever constructs a section block
(`slack.NewSectionBlock`) whose accessory, when present, is a checkbox
group element (`slack.NewAccessory(checkbox)`). -/
inductive Block where
  | sectionBlock (text : TextBlockObject) (fields : List TextBlockObject)
      (accessory : Option CheckboxGroupsBlockElement)
  deriving DecidableEq

/-- Constant `slack.MarkdownType`. -/
def MarkdownType : String := "mrkdwn"

/-- Model of `slack.Attachment` (the fields the program sets; Go zero values as
defaults, matching `slack.Attachment{}`). -/
structure Attachment where
  pretext : String := ""
  text : String := ""
  color : String := ""
  fields : List AttachmentField := []
  blocks : List Block := []
  deriving DecidableEq

/-- A `client.PostMessage` call: target channel and attachment sent. -/
abbrev PostedMessage := String × Attachment

/-- Model of `slack.User` (the program only reads `user.Name`). -/
structure User where
  name : String
  deriving DecidableEq

/-- The Slack client as used by the handlers: the two outbound calls, plus
the formatted current time (model of `time.Now().Format(...)`). -/
structure Client where
  getUserInfo : String → Except String User
  postMessage : String → Attachment → Except String Unit
  now : String

/-- Model of `slack.SlashCommand` (the fields the program reads). -/
structure SlashCommand where
  command : String
  text : String
  userName : String
  channelID : String
  deriving DecidableEq

/-- Model of `slackevents.AppMentionEvent` (the fields the program reads). -/
structure AppMentionEvent where
  user : String
  text : String
  channel : String
  deriving DecidableEq

/-- The inner event of an `EventsAPIEvent`: the program's type switch only
distinguishes `*slackevents.AppMentionEvent` from everything else. -/
inductive InnerEventData where
  | appMention (ev : AppMentionEvent)
  | otherInner
  deriving DecidableEq

/-- Constant `slackevents.CallbackEvent`. -/
def CallbackEvent : String := "event_callback"

/-- Model of `slackevents.EventsAPIEvent` (outer type string and inner event). -/
structure EventsAPIEvent where
  type : String
  innerEvent : InnerEventData
  deriving DecidableEq

/-- Constant `slack.InteractionTypeBlockActions`. -/
def InteractionTypeBlockActions : String := "block_actions"

/-- Model of `slack.BlockAction` (the fields the program logs). -/
structure BlockAction where
  actionID : String
  selectedOptions : List OptionBlockObject
  deriving DecidableEq

/-- Model of `slack.InteractionCallback` (the fields the program reads:
`ActionID`, `Type`, `ActionCallback.BlockActions`). -/
structure InteractionCallback where
  actionID : String
  type : String
  blockActions : List BlockAction
  deriving DecidableEq

/- ## Handlers -/

/-- Embedding of `handleAppMentionEvent`: look up the mentioning user (propagating a
lookup failure), build an attachment with Date and Initializer fields,
branch on whether the lowercased text contains "hello", and post the
attachment to the event's channel. Returns the Go `error` result and the
list of `PostMessage` calls issued. -/
def handleAppMentionEvent (client : Client) (event : AppMentionEvent) :
    Except String Unit × List PostedMessage :=
  match client.getUserInfo event.user with
  | .error e => (.error e, [])
  | .ok user =>
    let text := strToLower event.text
    let base : Attachment :=
      { fields := [{ title := "Date", value := client.now },
                   { title := "Initializer", value := user.name }] }
    let attachment : Attachment :=
      if strContains text "hello" then
        { base with
            text := "Hello " ++ user.name
            pretext := "Greetings"
            color := "#4af030" }
      else
        { base with
            text := "How can I help you " ++ user.name
            pretext := "How can I be of service?"
            color := "#3d3d3d" }
    match client.postMessage event.channel attachment with
    | .error e => (.error ("failed to post message: " ++ e), [(event.channel, attachment)])
    | .ok _ => (.ok (), [(event.channel, attachment)])

/-- Embedding of `handleEventMessage`: dispatch an Events-API event.  A callback event
whose inner event is an app mention goes to `handleAppMentionEvent`
(propagating its error); a callback event with any other inner event falls
through to `return nil`; any non-callback outer type returns the error
`"unsupported event type"`. -/
def handleEventMessage (client : Client) (event : EventsAPIEvent) :
    Except String Unit × List PostedMessage :=
  if event.type = CallbackEvent then
    match event.innerEvent with
    | .appMention ev => handleAppMentionEvent client ev
    | .otherInner => (.ok (), [])
  else
    (.error "unsupported event type", [])

/-- Embedding of `handleHelloCommand`: build an attachment with Date and Initializer
fields, greeting text `"Hello {user}! You said: {text}"` and the greeting
color, and post it to the command's channel. -/
def handleHelloCommand (client : Client) (command : SlashCommand) :
    Except String Unit × List PostedMessage :=
  let attachment : Attachment :=
    { fields := [{ title := "Date", value := client.now },
                 { title := "Initializer", value := command.userName }]
      text := "Hello " ++ command.userName ++ "! You said: " ++ command.text
      color := "#4af030" }
  match client.postMessage command.channelID attachment with
  | .error e => (.error ("failed to post message: " ++ e), [(command.channelID, attachment)])
  | .ok _ => (.ok (), [(command.channelID, attachment)])

/-- Embedding of `handleIsArticleGood`: build (and return, without posting) an
attachment whose single section block carries a checkbox group with the
two options Yes / No. -/
def handleIsArticleGood (_client : Client) (_command : SlashCommand) :
    (Attachment × Except String Unit) × List PostedMessage :=
  let checkbox : CheckboxGroupsBlockElement :=
    { actionID := "answer"
      options :=
        [{ value := "yes"
           text := { text := "Yes", type := MarkdownType }
           description := some { text := "Did you Enjoy it?", type := MarkdownType } },
         { value := "no"
           text := { text := "No", type := MarkdownType }
           description := some { text := "Did you Dislike it?", type := MarkdownType } }] }
  let attachment : Attachment :=
    { blocks := [Block.sectionBlock
                   { type := MarkdownType, text := "Did you think this article was helpful?" }
                   [] (some checkbox)]
      text := "Rate the tutorial"
      color := "#4af030" }
  ((attachment, .ok ()), [])

/-- Embedding of `handleSlashCommand`: route by exact command name.  `/hello` posts via
`handleHelloCommand` and returns a nil payload; `/was-this-article-useful`
returns the payload of `handleIsArticleGood`; everything else returns
`(nil, nil)`. -/
def handleSlashCommand (client : Client) (command : SlashCommand) :
    (Option Attachment × Except String Unit) × List PostedMessage :=
  if command.command = "/hello" then
    let (res, posts) := handleHelloCommand client command
    ((none, res), posts)
  else if command.command = "/was-this-article-useful" then
    let ((payload, res), posts) := handleIsArticleGood client command
    ((some payload, res), posts)
  else
    ((none, .ok ()), [])

/-- Embedding of `handleInteractiveEvent`: log the action id and the interaction type;
for block actions additionally log each action and its selected options;
send nothing and always return nil.  The `%+v` renderings of the Go log
calls are modelled by the structured fields they would print. -/
def handleInteractiveEvent (_client : Client) (interaction : InteractionCallback) :
    Except String Unit × List PostedMessage × List String :=
  let baseLogs := ["The action called is: " ++ interaction.actionID,
                   "The response was of type: " ++ interaction.type]
  let logs :=
    if interaction.type = InteractionTypeBlockActions then
      baseLogs ++ interaction.blockActions.foldr
        (fun action rest =>
          ("Action: " ++ action.actionID) ::
          ("Selected option: " ++
            String.intercalate ", " (action.selectedOptions.map (fun o => o.value))) :: rest) []
    else baseLogs
  (.ok (), [], logs)

/- ## Router (the event loop of `startCmd`) -/

/-- Constant `socketmode.EventTypeEventsAPI`. -/
def EventTypeEventsAPI : String := "events_api"

/-- Constant `socketmode.EventTypeSlashCommand`. -/
def EventTypeSlashCommand : String := "slash_commands"

/-- Constant `socketmode.EventTypeInteractive`. -/
def EventTypeInteractive : String := "interactive"

/-- The dynamic payload of a socketmode event; each router arm type-casts
it, and the cast succeeds exactly when the constructor matches. -/
inductive SocketData where
  | eventsAPIEvent (e : EventsAPIEvent)
  | slashCommand (c : SlashCommand)
  | interactionCallback (i : InteractionCallback)
  | otherData
  deriving DecidableEq

/-- A `socketmode.Event`: its `Type` string and its `Data` payload. -/
structure SocketEvent where
  type : String
  data : SocketData
  deriving DecidableEq

/-- Prefix of the router's log line on a failed Events-API cast. -/
def logCastEventsAPI : String :=
  "Could not type cast the event to the EventsAPIEvent"

/-- Prefix of the router's log line on a failed slash-command cast. -/
def logCastSlashCommand : String :=
  "Could not type cast the message to a SlashCommand"

/-- Prefix of the router's log line on a failed interaction-callback cast. -/
def logCastInteractive : String :=
  "Could not type cast the message to a Interaction callback"

/-- Side effects of one iteration of the router loop: log lines, `Ack`
calls (with their optional payload), and `PostMessage` calls. -/
structure StepEffects where
  logs : List String
  acks : List (Option Attachment)
  posts : List PostedMessage
  deriving DecidableEq

/-- Outcome of one iteration of the router loop: either the loop continues
with the next event, or `log.Fatal` terminates the process. -/
inductive StepResult where
  | next (fx : StepEffects)
  | fatal (err : String) (fx : StepEffects)
  deriving DecidableEq

/-- One iteration of the event loop in `startCmd`: switch on the event
type; on a failed cast log and continue; Events-API events are acked
before the handler runs, slash commands are acked (with the handler's
payload) after, interactive events after; a non-nil handler error is
`log.Fatal`.  Event types outside the three cases fall through the switch
untouched. -/
def routerStep (client : Client) (event : SocketEvent) : StepResult :=
  if event.type = EventTypeEventsAPI then
    match event.data with
    | .eventsAPIEvent apiEvent =>
      match handleEventMessage client apiEvent with
      | (.ok _, posts) => .next { logs := [], acks := [none], posts := posts }
      | (.error e, posts) => .fatal e { logs := [], acks := [none], posts := posts }
    | _ => .next { logs := [logCastEventsAPI], acks := [], posts := [] }
  else if event.type = EventTypeSlashCommand then
    match event.data with
    | .slashCommand cmd =>
      match handleSlashCommand client cmd with
      | ((payload, .ok _), posts) => .next { logs := [], acks := [payload], posts := posts }
      | ((_, .error e), posts) => .fatal e { logs := [], acks := [], posts := posts }
    | _ => .next { logs := [logCastSlashCommand], acks := [], posts := [] }
  else if event.type = EventTypeInteractive then
    match event.data with
    | .interactionCallback interaction =>
      match handleInteractiveEvent client interaction with
      | (.ok _, posts, logs) => .next { logs := logs, acks := [none], posts := posts }
      | (.error e, posts, logs) => .fatal e { logs := logs, acks := [], posts := posts }
    | _ => .next { logs := [logCastInteractive], acks := [], posts := [] }
  else
    .next { logs := [], acks := [], posts := [] }

/-- The receive loop over a finite trace of incoming events: effects of
each processed iteration, and the fatal error, if one terminated the
process before the trace was exhausted. -/
def runEvents (client : Client) : List SocketEvent → List StepEffects × Option String
  | [] => ([], none)
  | e :: rest =>
    match routerStep client e with
    | .next fx =>
      let (fxs, err) := runEvents client rest
      (fx :: fxs, err)
    | .fatal err fx => ([fx], some err)

/- ## Helper lemmas and concrete fixtures -/

/-- The ASCII case map is idempotent. -/
theorem charToLower_idem (c : Char) : charToLower (charToLower c) = charToLower c := by
  by_cases h : 65 ≤ c.toNat ∧ c.toNat ≤ 90
  · obtain ⟨h1, h2⟩ := h
    have hc : charToLower c = Char.ofNat (c.toNat + 32) := by
      unfold charToLower
      rw [if_pos ⟨h1, h2⟩]
    have haux : ∀ n : Nat, 65 ≤ n → n ≤ 90 →
        charToLower (Char.ofNat (n + 32)) = Char.ofNat (n + 32) := by
      intro n hn1 hn2
      interval_cases n <;> decide
    rw [hc]
    exact haux c.toNat h1 h2
  · unfold charToLower
    rw [if_neg h, if_neg h]

/-- Lowercasing is idempotent. -/
theorem strToLower_idem (s : String) : strToLower (strToLower s) = strToLower s := by
  unfold strToLower
  congr 1
  simp only [List.map_map]
  exact List.map_congr_left (fun c _ => charToLower_idem c)

/-- If a processed event lets the router continue, the loop goes on to the
remaining events. -/
theorem runEvents_next (client : Client) (e : SocketEvent) (rest : List SocketEvent)
    (fx : StepEffects) (h : routerStep client e = .next fx) :
    runEvents client (e :: rest) =
      (fx :: (runEvents client rest).1, (runEvents client rest).2) := by
  simp only [runEvents]
  rw [h]

/-- If a processed event is fatal, the loop stops: the remaining events are
never processed. -/
theorem runEvents_fatal (client : Client) (e : SocketEvent) (rest : List SocketEvent)
    (err : String) (fx : StepEffects) (h : routerStep client e = .fatal err fx) :
    runEvents client (e :: rest) = ([fx], some err) := by
  simp only [runEvents]
  rw [h]

/-- A client whose outbound calls all succeed. -/
def okClient : Client :=
  { getUserInfo := fun _ => .ok { name := "tester" }
    postMessage := fun _ _ => .ok ()
    now := "2024-01-02 03:04:05" }

/-- A client whose user lookup fails. -/
def lookupFailClient : Client :=
  { getUserInfo := fun _ => .error "users_not_found"
    postMessage := fun _ _ => .ok ()
    now := "2024-01-02 03:04:05" }

/-- A client whose message post fails. -/
def postFailClient : Client :=
  { getUserInfo := fun _ => .ok { name := "tester" }
    postMessage := fun _ _ => .error "channel_not_found"
    now := "2024-01-02 03:04:05" }

/- ## Claim theorems -/

/-- C1: for every slash command whose `Command` field is `/hello`, with
argument text `T` and user name `U`, the handler issues exactly one
`PostMessage` call, whose attachment text is exactly
`"Hello {U}! You said: {T}"`, and the payload `handleSlashCommand` returns
to the router for acknowledgment is nil. -/
theorem hello_command_echoes (client : Client) (command : SlashCommand)
    (h : command.command = "/hello") :
    (handleSlashCommand client command).1.1 = none ∧
    (handleSlashCommand client command).2.map (fun p => p.2.text) =
      ["Hello " ++ command.userName ++ "! You said: " ++ command.text] := by
  have hs : handleSlashCommand client command =
      ((none, (handleHelloCommand client command).1), (handleHelloCommand client command).2) := by
    unfold handleSlashCommand
    rw [if_pos h]
  rw [hs]
  refine ⟨rfl, ?_⟩
  unfold handleHelloCommand
  dsimp only
  split <;> simp

/-- Witness for C1 at a concrete command and client. -/
theorem hello_command_echoes_witness :
    ({ command := "/hello", text := "hi there", userName := "bob",
       channelID := "C1" } : SlashCommand).command = "/hello" ∧
    (handleSlashCommand okClient
        { command := "/hello", text := "hi there", userName := "bob",
          channelID := "C1" }).1.1 = none ∧
    (handleSlashCommand okClient
        { command := "/hello", text := "hi there", userName := "bob",
          channelID := "C1" }).2.map (fun p => p.2.text) =
      ["Hello bob! You said: hi there"] :=
  ⟨rfl, (hello_command_echoes okClient _ rfl).1, (hello_command_echoes okClient _ rfl).2⟩

/-- C2: for every slash command whose `Command` field is neither `/hello`
nor `/was-this-article-useful`, `handleSlashCommand` returns a nil payload
and a nil error, issues no `PostMessage` call, and has no other effect. -/
theorem unknown_slash_command_dropped (client : Client) (command : SlashCommand)
    (h1 : command.command ≠ "/hello")
    (h2 : command.command ≠ "/was-this-article-useful") :
    handleSlashCommand client command = ((none, .ok ()), []) := by
  unfold handleSlashCommand
  rw [if_neg h1, if_neg h2]

/-- Witness for C2 at a concrete unmapped command. -/
theorem unknown_slash_command_dropped_witness :
    ("/frobnicate" : String) ≠ "/hello" ∧
    ("/frobnicate" : String) ≠ "/was-this-article-useful" ∧
    handleSlashCommand okClient
        { command := "/frobnicate", text := "x", userName := "bob",
          channelID := "C1" } = ((none, .ok ()), []) :=
  ⟨by decide, by decide,
    unknown_slash_command_dropped okClient _ (by decide) (by decide)⟩

/-- An Events-API event whose outer type is not a callback event. -/
def nonCallbackEvent : EventsAPIEvent :=
  { type := "url_verification", innerEvent := .otherInner }

/-- C3 counterexample: the claim is false at two concrete inputs.  An
Events-API event whose outer type is not a callback event is NOT handled
non-fatally: `handleEventMessage` returns the error
`"unsupported event type"` and the router terminates the process
(`log.Fatal`).  And an event of unknown socketmode kind (here the `hello`
frame) is skipped without any log line, so "logs and continues" fails on
its logging half. -/
theorem router_noncallback_fatal_cex :
    routerStep okClient
        { type := EventTypeEventsAPI, data := .eventsAPIEvent nonCallbackEvent } =
      .fatal "unsupported event type" { logs := [], acks := [none], posts := [] } ∧
    routerStep okClient { type := "hello", data := .otherData } =
      .next { logs := [], acks := [], posts := [] } :=
  ⟨rfl, rfl⟩

/-- C3 (amended): an event of unknown socketmode kind is skipped silently
(no log) and the loop continues; an event of a handled kind whose data
fails the type cast is logged and the loop continues; but an Events-API
event whose outer type is not a callback event makes `handleEventMessage`
return the error `"unsupported event type"`, which the router treats as
fatal; whenever the router continues, the remaining events are still
processed. -/
theorem router_unknown_castfail_behavior :
    (∀ (client : Client) (e : SocketEvent),
       e.type ≠ EventTypeEventsAPI → e.type ≠ EventTypeSlashCommand →
       e.type ≠ EventTypeInteractive →
       routerStep client e = .next { logs := [], acks := [], posts := [] }) ∧
    (∀ (client : Client) (e : SocketEvent),
       e.type = EventTypeEventsAPI →
       (∀ a, e.data ≠ .eventsAPIEvent a) →
       routerStep client e = .next { logs := [logCastEventsAPI], acks := [], posts := [] }) ∧
    (∀ (client : Client) (e : SocketEvent),
       e.type = EventTypeSlashCommand →
       (∀ c, e.data ≠ .slashCommand c) →
       routerStep client e = .next { logs := [logCastSlashCommand], acks := [], posts := [] }) ∧
    (∀ (client : Client) (e : SocketEvent),
       e.type = EventTypeInteractive →
       (∀ i, e.data ≠ .interactionCallback i) →
       routerStep client e = .next { logs := [logCastInteractive], acks := [], posts := [] }) ∧
    (∀ (client : Client) (ev : EventsAPIEvent),
       ev.type ≠ CallbackEvent →
       routerStep client { type := EventTypeEventsAPI, data := .eventsAPIEvent ev } =
         .fatal "unsupported event type" { logs := [], acks := [none], posts := [] }) ∧
    (∀ (client : Client) (e : SocketEvent) (rest : List SocketEvent) (fx : StepEffects),
       routerStep client e = .next fx →
       runEvents client (e :: rest) =
         (fx :: (runEvents client rest).1, (runEvents client rest).2)) := by
  refine ⟨?_, ?_, ?_, ?_, ?_, ?_⟩
  · intro client e h1 h2 h3
    unfold routerStep
    rw [if_neg h1, if_neg h2, if_neg h3]
  · intro client e h hne
    unfold routerStep
    rw [if_pos h]
    cases hd : e.data with
    | eventsAPIEvent a => exact absurd hd (hne a)
    | slashCommand c => rfl
    | interactionCallback i => rfl
    | otherData => rfl
  · intro client e h hne
    unfold routerStep
    rw [if_neg (by rw [h]; decide), if_pos h]
    cases hd : e.data with
    | slashCommand c => exact absurd hd (hne c)
    | eventsAPIEvent a => rfl
    | interactionCallback i => rfl
    | otherData => rfl
  · intro client e h hne
    unfold routerStep
    rw [if_neg (by rw [h]; decide), if_neg (by rw [h]; decide), if_pos h]
    cases hd : e.data with
    | interactionCallback i => exact absurd hd (hne i)
    | eventsAPIEvent a => rfl
    | slashCommand c => rfl
    | otherData => rfl
  · intro client ev h
    unfold routerStep
    dsimp only
    rw [if_pos rfl]
    unfold handleEventMessage
    rw [if_neg h]
  · exact runEvents_next

/-- Witness for C3 (amended) at concrete events and a concrete client. -/
theorem router_unknown_castfail_behavior_witness :
    routerStep okClient { type := "hello", data := .otherData } =
      .next { logs := [], acks := [], posts := [] } ∧
    routerStep okClient { type := EventTypeEventsAPI, data := .otherData } =
      .next { logs := [logCastEventsAPI], acks := [], posts := [] } ∧
    routerStep okClient { type := EventTypeSlashCommand, data := .otherData } =
      .next { logs := [logCastSlashCommand], acks := [], posts := [] } ∧
    routerStep okClient { type := EventTypeInteractive, data := .otherData } =
      .next { logs := [logCastInteractive], acks := [], posts := [] } ∧
    routerStep okClient
        { type := EventTypeEventsAPI, data := .eventsAPIEvent nonCallbackEvent } =
      .fatal "unsupported event type" { logs := [], acks := [none], posts := [] } ∧
    runEvents okClient [{ type := "hello", data := .otherData }] =
      ([{ logs := [], acks := [], posts := [] }], none) :=
  ⟨router_unknown_castfail_behavior.1 okClient _ (by decide) (by decide) (by decide),
   router_unknown_castfail_behavior.2.1 okClient _ rfl
     (fun a h => SocketData.noConfusion h),
   router_unknown_castfail_behavior.2.2.1 okClient _ rfl
     (fun c h => SocketData.noConfusion h),
   router_unknown_castfail_behavior.2.2.2.1 okClient _ rfl
     (fun i h => SocketData.noConfusion h),
   router_unknown_castfail_behavior.2.2.2.2.1 okClient nonCallbackEvent (by decide),
   router_unknown_castfail_behavior.2.2.2.2.2 okClient _ [] _
     (router_unknown_castfail_behavior.1 okClient _ (by decide) (by decide) (by decide))⟩

/-- A mention event fixture. -/
def mentionEv : AppMentionEvent :=
  { user := "U1", text := "say hello", channel := "C1" }

/-- A callback Events-API event wrapping `mentionEv`. -/
def callbackMention : EventsAPIEvent :=
  { type := CallbackEvent, innerEvent := .appMention mentionEv }

/-- A `/hello` slash-command fixture. -/
def helloCmd : SlashCommand :=
  { command := "/hello", text := "hi", userName := "bob", channelID := "C1" }

/-- The attachment `handleHelloCommand` builds for `helloCmd` under a
client whose clock reads `"2024-01-02 03:04:05"`. -/
def helloCmdAttachment : Attachment :=
  { pretext := ""
    text := "Hello bob! You said: hi"
    color := "#4af030"
    fields := [{ title := "Date", value := "2024-01-02 03:04:05" },
               { title := "Initializer", value := "bob" }]
    blocks := [] }

/-- C4: for every handled event kind with a successful cast, a non-nil
handler error makes the router `log.Fatal`: the step is fatal and the
receive loop stops without processing the remaining events. -/
theorem router_fatal_on_handler_error :
    (∀ (client : Client) (apiEvent : EventsAPIEvent) (e : String)
       (posts : List PostedMessage),
       handleEventMessage client apiEvent = (.error e, posts) →
       routerStep client { type := EventTypeEventsAPI, data := .eventsAPIEvent apiEvent } =
         .fatal e { logs := [], acks := [none], posts := posts } ∧
       ∀ rest, runEvents client
           ({ type := EventTypeEventsAPI, data := .eventsAPIEvent apiEvent } :: rest) =
         ([{ logs := [], acks := [none], posts := posts }], some e)) ∧
    (∀ (client : Client) (cmd : SlashCommand) (payload : Option Attachment)
       (e : String) (posts : List PostedMessage),
       handleSlashCommand client cmd = ((payload, .error e), posts) →
       routerStep client { type := EventTypeSlashCommand, data := .slashCommand cmd } =
         .fatal e { logs := [], acks := [], posts := posts } ∧
       ∀ rest, runEvents client
           ({ type := EventTypeSlashCommand, data := .slashCommand cmd } :: rest) =
         ([{ logs := [], acks := [], posts := posts }], some e)) ∧
    (∀ (client : Client) (interaction : InteractionCallback) (e : String)
       (posts : List PostedMessage) (logs : List String),
       handleInteractiveEvent client interaction = (.error e, posts, logs) →
       routerStep client
           { type := EventTypeInteractive, data := .interactionCallback interaction } =
         .fatal e { logs := logs, acks := [], posts := posts }) := by
  refine ⟨?_, ?_, ?_⟩
  · intro client apiEvent e posts h
    have hr : routerStep client
        { type := EventTypeEventsAPI, data := .eventsAPIEvent apiEvent } =
        .fatal e { logs := [], acks := [none], posts := posts } := by
      unfold routerStep
      dsimp only
      rw [if_pos rfl, h]
    exact ⟨hr, fun rest => runEvents_fatal _ _ _ _ _ hr⟩
  · intro client cmd payload e posts h
    have hr : routerStep client
        { type := EventTypeSlashCommand, data := .slashCommand cmd } =
        .fatal e { logs := [], acks := [], posts := posts } := by
      unfold routerStep
      dsimp only
      rw [if_neg (by decide), if_pos rfl, h]
    exact ⟨hr, fun rest => runEvents_fatal _ _ _ _ _ hr⟩
  · intro client interaction e posts logs h
    unfold routerStep
    dsimp only
    rw [if_neg (by decide), if_neg (by decide), if_pos rfl, h]

/-- Witness for C4: a failing user lookup kills the process on a mention
event, and a failing message post kills it on a `/hello` command. -/
theorem router_fatal_on_handler_error_witness :
    (routerStep lookupFailClient
        { type := EventTypeEventsAPI, data := .eventsAPIEvent callbackMention } =
      .fatal "users_not_found" { logs := [], acks := [none], posts := [] } ∧
    ∀ rest, runEvents lookupFailClient
        ({ type := EventTypeEventsAPI, data := .eventsAPIEvent callbackMention } :: rest) =
      ([{ logs := [], acks := [none], posts := [] }], some "users_not_found")) ∧
    (routerStep postFailClient
        { type := EventTypeSlashCommand, data := .slashCommand helloCmd } =
      .fatal "failed to post message: channel_not_found"
        { logs := [], acks := [], posts := [("C1", helloCmdAttachment)] } ∧
    ∀ rest, runEvents postFailClient
        ({ type := EventTypeSlashCommand, data := .slashCommand helloCmd } :: rest) =
      ([{ logs := [], acks := [], posts := [("C1", helloCmdAttachment)] }],
        some "failed to post message: channel_not_found")) :=
  ⟨router_fatal_on_handler_error.1 lookupFailClient callbackMention
      "users_not_found" [] rfl,
   router_fatal_on_handler_error.2.1 postFailClient helloCmd none
      "failed to post message: channel_not_found" [("C1", helloCmdAttachment)] rfl⟩

/-- C5: for every app-mention event whose text contains "hello" in any
letter case (i.e. whose lowercased text contains "hello"), the single
posted attachment has pretext `"Greetings"` and the greeting color
`"#4af030"`; and lowering the case of the text does not change the
handler's behavior at all, in particular not which branch is taken. -/
theorem mention_hello_greeting :
    (∀ (client : Client) (event : AppMentionEvent) (user : User),
       client.getUserInfo event.user = .ok user →
       strContains (strToLower event.text) "hello" = true →
       (handleAppMentionEvent client event).2.map (fun p => (p.2.pretext, p.2.color)) =
         [("Greetings", "#4af030")]) ∧
    (∀ (client : Client) (event : AppMentionEvent),
       handleAppMentionEvent client { event with text := strToLower event.text } =
         handleAppMentionEvent client event) := by
  constructor
  · intro client event user h1 h2
    unfold handleAppMentionEvent
    rw [h1]
    dsimp only
    rw [if_pos h2]
    split <;> simp
  · intro client event
    unfold handleAppMentionEvent
    dsimp only
    rw [strToLower_idem]

/-- Witness for C5 at a concrete mixed-case mention. -/
theorem mention_hello_greeting_witness :
    okClient.getUserInfo "U1" = .ok { name := "tester" } ∧
    strContains (strToLower "Well HELLO there") "hello" = true ∧
    (handleAppMentionEvent okClient
        { user := "U1", text := "Well HELLO there", channel := "C1" }).2.map
      (fun p => (p.2.pretext, p.2.color)) = [("Greetings", "#4af030")] ∧
    handleAppMentionEvent okClient
        { user := "U1", text := strToLower "Well HELLO there", channel := "C1" } =
      handleAppMentionEvent okClient
        { user := "U1", text := "Well HELLO there", channel := "C1" } :=
  ⟨rfl, by decide,
   mention_hello_greeting.1 okClient
     { user := "U1", text := "Well HELLO there", channel := "C1" }
     { name := "tester" } rfl (by decide),
   mention_hello_greeting.2 okClient
     { user := "U1", text := "Well HELLO there", channel := "C1" }⟩

/-- C6: for every app-mention event whose lowercased text does not contain
"hello", the single posted attachment has pretext
`"How can I be of service?"`, text `"How can I help you {user name}"` and
color `"#3d3d3d"`. -/
theorem mention_default_prompt (client : Client) (event : AppMentionEvent)
    (user : User) (h1 : client.getUserInfo event.user = .ok user)
    (h2 : strContains (strToLower event.text) "hello" = false) :
    (handleAppMentionEvent client event).2.map
        (fun p => (p.2.pretext, p.2.text, p.2.color)) =
      [("How can I be of service?", "How can I help you " ++ user.name, "#3d3d3d")] := by
  unfold handleAppMentionEvent
  rw [h1]
  dsimp only
  rw [if_neg (by rw [h2]; decide)]
  split <;> simp

/-- Witness for C6 at a concrete mention without "hello". -/
theorem mention_default_prompt_witness :
    okClient.getUserInfo "U1" = .ok { name := "tester" } ∧
    strContains (strToLower "what time is it") "hello" = false ∧
    (handleAppMentionEvent okClient
        { user := "U1", text := "what time is it", channel := "C1" }).2.map
      (fun p => (p.2.pretext, p.2.text, p.2.color)) =
      [("How can I be of service?", "How can I help you tester", "#3d3d3d")] :=
  ⟨rfl, by decide,
   mention_default_prompt okClient
     { user := "U1", text := "what time is it", channel := "C1" }
     { name := "tester" } rfl (by decide)⟩

/-- The checkbox options reachable from an attachment's blocks (section
blocks with a checkbox-group accessory). -/
def attachmentCheckboxOptions (a : Attachment) : List OptionBlockObject :=
  a.blocks.foldr
    (fun b acc =>
      match b with
      | .sectionBlock _ _ (some cb) => cb.options ++ acc
      | .sectionBlock _ _ none => acc) []

/-- C7: for every `/was-this-article-useful` slash command, the handler
sends no message; it returns, with a nil error, a payload whose checkbox
group contains exactly two selectable options labeled "Yes" and "No", and
the router acknowledges with exactly that payload. -/
theorem article_command_payload (client : Client) (command : SlashCommand)
    (h : command.command = "/was-this-article-useful") :
    ∃ a : Attachment,
      handleSlashCommand client command = ((some a, .ok ()), []) ∧
      (attachmentCheckboxOptions a).map (fun o => o.text.text) = ["Yes", "No"] ∧
      (attachmentCheckboxOptions a).length = 2 ∧
      routerStep client { type := EventTypeSlashCommand, data := .slashCommand command } =
        .next { logs := [], acks := [some a], posts := [] } := by
  have hs : handleSlashCommand client command =
      ((some (handleIsArticleGood client command).1.1, .ok ()), []) := by
    unfold handleSlashCommand
    rw [if_neg (by rw [h]; decide), if_pos h]
    rfl
  refine ⟨(handleIsArticleGood client command).1.1, hs, rfl, rfl, ?_⟩
  unfold routerStep
  dsimp only
  rw [if_neg (by decide), if_pos rfl, hs]

/-- Witness for C7 at a concrete command. -/
theorem article_command_payload_witness :
    ({ command := "/was-this-article-useful", text := "", userName := "alice",
       channelID := "C2" } : SlashCommand).command = "/was-this-article-useful" ∧
    ∃ a : Attachment,
      handleSlashCommand okClient
          { command := "/was-this-article-useful", text := "", userName := "alice",
            channelID := "C2" } = ((some a, .ok ()), []) ∧
      (attachmentCheckboxOptions a).map (fun o => o.text.text) = ["Yes", "No"] ∧
      (attachmentCheckboxOptions a).length = 2 ∧
      routerStep okClient
          { type := EventTypeSlashCommand,
            data := .slashCommand
              { command := "/was-this-article-useful", text := "", userName := "alice",
                channelID := "C2" } } =
        .next { logs := [], acks := [some a], posts := [] } :=
  ⟨rfl, article_command_payload okClient _ rfl⟩

/-- C8: for every app-mention event, a failed user lookup makes
`handleAppMentionEvent` return that error with no `PostMessage` call; on a
successful lookup the single posted attachment carries exactly a Date
field (the formatted clock) and an Initializer field (the user's name). -/
theorem mention_lookup_error_and_fields :
    (∀ (client : Client) (event : AppMentionEvent) (e : String),
       client.getUserInfo event.user = .error e →
       handleAppMentionEvent client event = (.error e, [])) ∧
    (∀ (client : Client) (event : AppMentionEvent) (user : User),
       client.getUserInfo event.user = .ok user →
       (handleAppMentionEvent client event).2.map (fun p => p.2.fields) =
         [[{ title := "Date", value := client.now },
           { title := "Initializer", value := user.name }]]) := by
  constructor
  · intro client event e h
    unfold handleAppMentionEvent
    rw [h]
  · intro client event user h
    unfold handleAppMentionEvent
    rw [h]
    dsimp only
    split <;> split <;> simp

/-- Witness for C8: the failing lookup propagates, and the successful
lookup yields the Date and Initializer fields. -/
theorem mention_lookup_error_and_fields_witness :
    lookupFailClient.getUserInfo "U1" = .error "users_not_found" ∧
    handleAppMentionEvent lookupFailClient mentionEv = (.error "users_not_found", []) ∧
    okClient.getUserInfo "U1" = .ok { name := "tester" } ∧
    (handleAppMentionEvent okClient mentionEv).2.map (fun p => p.2.fields) =
      [[{ title := "Date", value := okClient.now },
        { title := "Initializer", value := "tester" }]] :=
  ⟨rfl,
   mention_lookup_error_and_fields.1 lookupFailClient mentionEv "users_not_found" rfl,
   rfl,
   mention_lookup_error_and_fields.2 okClient mentionEv { name := "tester" } rfl⟩

/-- C9: for every interactive-callback payload, `handleInteractiveEvent`
issues no `PostMessage` call, returns a nil error, and only logs, its log
starting with the action id and the interaction type. -/
theorem interactive_handler_stub :
    ∀ (client : Client) (interaction : InteractionCallback),
      (handleInteractiveEvent client interaction).1 = .ok () ∧
      (handleInteractiveEvent client interaction).2.1 = [] ∧
      ∃ rest, (handleInteractiveEvent client interaction).2.2 =
        ("The action called is: " ++ interaction.actionID) ::
        ("The response was of type: " ++ interaction.type) :: rest := by
  intro client interaction
  refine ⟨rfl, rfl, ?_⟩
  unfold handleInteractiveEvent
  dsimp only
  split
  · exact ⟨_, rfl⟩
  · exact ⟨[], rfl⟩

/-- C10: for every Events-API callback event whose inner event is not an
app mention, `handleEventMessage` returns nil with no `PostMessage` call:
such events are silently ignored. -/
theorem event_message_ignores_non_mention (client : Client) (event : EventsAPIEvent)
    (h1 : event.type = CallbackEvent)
    (h2 : ∀ ev, event.innerEvent ≠ InnerEventData.appMention ev) :
    handleEventMessage client event = (.ok (), []) := by
  unfold handleEventMessage
  rw [if_pos h1]
  cases hi : event.innerEvent with
  | appMention ev => exact absurd hi (h2 ev)
  | otherInner => rfl

/-- Witness for C10 at a concrete callback event with a non-mention inner
event. -/
theorem event_message_ignores_non_mention_witness :
    ({ type := CallbackEvent, innerEvent := .otherInner } : EventsAPIEvent).type =
      CallbackEvent ∧
    handleEventMessage okClient { type := CallbackEvent, innerEvent := .otherInner } =
      (.ok (), []) :=
  ⟨rfl,
   event_message_ignores_non_mention okClient
     { type := CallbackEvent, innerEvent := .otherInner } rfl
     (fun _ h => InnerEventData.noConfusion h)⟩

end MAVBot
